import Mathlib

/-!
Verification of the Keiko API Contracts service (src/server.js).

The development shallowly embeds the request handlers of the single-file
Express application: the three generic contract resolvers
(/openapi/:spec, /asyncapi/:spec, /protobuf/:file), the two aggregate
document routes (/frontend/openapi.json, /backend/openapi.json), the
metrics and versions endpoints, the two rate limiters, and the error
bodies the server can emit.  The filesystem is modelled as an explicit
state (existence predicate plus fallible read), the js-yaml parser as an
abstract function String to Option Doc, and every filesystem touch
performed by a handler is recorded in an explicit access list.
-/

namespace KeikoContracts

/-- Whether the pattern list is a prefix of the second list
(character-by-character comparison, as JS string search does). -/
def listStarts : List Char → List Char → Bool
  | [], _ => true
  | _ :: _, [] => false
  | p :: ps, c :: cs => p == c && listStarts ps cs

/-- Whether the second list occurs contiguously anywhere inside the first. -/
def listHasInfix : List Char → List Char → Bool
  | s, sub =>
    match s with
    | [] => sub.isEmpty
    | _ :: rest => listStarts sub s || listHasInfix rest sub

/-- JS `String.prototype.includes(sub)`: substring containment test.
Used by the validation checks in server.js lines 256, 324 and 391. -/
def jsIncludes (s sub : String) : Bool := listHasInfix s.data sub.data

/-- JS `String.prototype.endsWith(post)`.  Used by the extension checks in
server.js lines 256, 324 and 391. -/
def jsEndsWith (s post : String) : Bool := listStarts post.data.reverse s.data.reverse

/-- JS `String.prototype.startsWith(pre)`. -/
def jsStartsWith (s pre : String) : Bool := listStarts pre.data s.data

/-- Generic document tree produced by `yaml.load` (js-yaml) and consumed by
`res.json`: null, booleans, numbers, strings, sequences and mappings. -/
inductive Doc where
  | nul
  | bool (b : Bool)
  | num (n : Int)
  | str (s : String)
  | arr (xs : List Doc)
  | obj (fields : List (String × Doc))

/-- Filesystem state visible to the handlers: `fs.existsSync` and
`fs.readFileSync` (the latter returns `none` when the read would throw). -/
structure Fs where
  existsSync : String → Bool
  readFileSync : String → Option String

/-- One filesystem access performed by a handler, in order of occurrence:
`fs.existsSync`, `fs.readFileSync`, or `fs.statSync`. -/
inductive FsOp where
  | existsCheck (path : String)
  | readFile (path : String)
  | statFile (path : String)
  deriving DecidableEq, Repr

/-- The parts of the Express request the handlers inspect: the route
parameter (`req.params.spec` / `req.params.file`), the `Accept` header
(`req.headers.accept`, absent = `none`) and the correlation id attached by
the tracing middleware (server.js lines 96-133). -/
structure Request where
  param : String
  accept : Option String
  correlationId : String

/-- Response body: a JSON object literal (`res.json({...})`), a parsed
document rendered as JSON (`res.json(spec)`), raw text (`res.send` /
`res.end`), or a streamed file (`res.sendFile`). -/
inductive Body where
  | jsonObj (fields : List (String × Doc))
  | jsonDoc (doc : Doc)
  | raw (text : String)
  | fileStream (path : String)

/-- HTTP response: status code, Content-Type header, body. -/
structure Response where
  status : Nat
  contentType : Option String
  body : Body

/-- The error body shape `{ error: msg, correlationId: cid }` used by almost
every error branch in server.js. -/
def errorBody (msg cid : String) : Body :=
  Body.jsonObj [("error", Doc.str msg), ("correlationId", Doc.str cid)]

/-- Look up a top-level key of a JSON-object body. -/
def lookupKey (b : Body) (k : String) : Option Doc :=
  match b with
  | Body.jsonObj fields => (fields.find? (fun kv => kv.1 == k)).map (fun kv => kv.2)
  | _ => none

/-- Whether a JSON-object body has the given top-level key. -/
def bodyHasKey (b : Body) (k : String) : Bool := (lookupKey b k).isSome

/-- Whether the given top-level key exists and holds a number. -/
def keyIsNumeric (b : Body) (k : String) : Bool :=
  match lookupKey b k with
  | some (Doc.num _) => true
  | _ => false

/-- The three contract categories served by the parameterised routes. -/
inductive Category where
  | openapi
  | asyncapi
  | protobuf
  deriving DecidableEq, Repr

/-- Root directory per category (server.js lines 253, 321, 388). -/
def categoryRoot : Category → String
  | Category.openapi => "./contracts/openapi"
  | Category.asyncapi => "./contracts/asyncapi"
  | Category.protobuf => "./contracts/protobuf"

/-- Required file extension per category (server.js lines 256, 324, 391). -/
def requiredExt : Category → String
  | Category.openapi => ".yaml"
  | Category.asyncapi => ".yaml"
  | Category.protobuf => ".proto"

/-- Error message of the 400 branch per category (server.js lines 263, 331, 398). -/
def invalidMsg : Category → String
  | Category.openapi => "Invalid specification file name"
  | Category.asyncapi => "Invalid AsyncAPI specification file name"
  | Category.protobuf => "Invalid protobuf file name"

/-- Error message of the 404 branch per category (server.js lines 275, 343, 410). -/
def notFoundMsg : Category → String
  | Category.openapi => "Specification not found"
  | Category.asyncapi => "AsyncAPI specification not found"
  | Category.protobuf => "Protobuf file not found"

/-- Error message of the catch-all 500 branch per category
(server.js lines 312, 379, 434). -/
def parseErrorMsg : Category → String
  | Category.openapi => "Failed to parse specification"
  | Category.asyncapi => "Failed to parse AsyncAPI specification"
  | Category.protobuf => "Failed to serve protobuf file"

/-- `path.join(root, file)`.  For the validated file names reaching it
(no empty name, no separators, no parent references) Node's `path.join`
is plain concatenation with a slash. -/
def pathJoin (root f : String) : String := root ++ "/" ++ f

/-- The validation test of server.js lines 256 / 324 / 391, verbatim:
`file.includes('..') || file.includes('/') || !file.endsWith(ext)`. -/
def invalidFileName (c : Category) (f : String) : Bool :=
  jsIncludes f ".." || jsIncludes f "/" || !(jsEndsWith f (requiredExt c))

/-- The Accept-header test of server.js lines 287 / 354:
`req.headers.accept && req.headers.accept.includes('application/yaml')`. -/
def wantsYaml : Option String → Bool
  | none => false
  | some a => jsIncludes a "application/yaml"

/-- The three parameterised contract resolvers, server.js lines 251-316
(`/openapi/:spec`), 319-383 (`/asyncapi/:spec`) and 386-438
(`/protobuf/:file`), which differ only in root directory, extension,
messages, and the protobuf category skipping YAML processing.
`yamlLoad` abstracts `yaml.load` of the js-yaml dependency (`none` when it
throws); `fsx.readFileSync` returns `none` when the read throws, which the
surrounding `try` turns into the same 500 as a parse failure.  The second
component lists every filesystem access the handler performed, in order. -/
def specHandler (c : Category) (yamlLoad : String → Option Doc) (fsx : Fs)
    (req : Request) : Response × List FsOp :=
  let specFile := req.param
  let filePath := pathJoin (categoryRoot c) specFile
  if invalidFileName c specFile then
    (⟨400, some "application/json", errorBody (invalidMsg c) req.correlationId⟩, [])
  else if fsx.existsSync filePath = false then
    (⟨404, some "application/json", errorBody (notFoundMsg c) req.correlationId⟩,
      [FsOp.existsCheck filePath])
  else
    match c with
    | Category.protobuf =>
        (⟨200, some "text/plain", Body.fileStream filePath⟩,
          [FsOp.existsCheck filePath, FsOp.statFile filePath])
    | _ =>
        match fsx.readFileSync filePath with
        | none =>
            (⟨500, some "application/json", errorBody (parseErrorMsg c) req.correlationId⟩,
              [FsOp.existsCheck filePath, FsOp.readFile filePath])
        | some content =>
            if wantsYaml req.accept then
              (⟨200, some "application/yaml", Body.raw content⟩,
                [FsOp.existsCheck filePath, FsOp.readFile filePath])
            else
              match yamlLoad content with
              | some spec =>
                  (⟨200, some "application/json", Body.jsonDoc spec⟩,
                    [FsOp.existsCheck filePath, FsOp.readFile filePath])
              | none =>
                  (⟨500, some "application/json", errorBody (parseErrorMsg c) req.correlationId⟩,
                    [FsOp.existsCheck filePath, FsOp.readFile filePath])

/-- The `/metrics` handler, server.js lines 136-148.  `metricsResult`
abstracts `register.metrics()` (`none` when it throws).  The catch branch
responds 500 with a body that carries only an `error` field. -/
def metricsHandler (metricsResult : Option String) : Response :=
  match metricsResult with
  | some text => ⟨200, some "text/plain; version=0.0.4; charset=utf-8", Body.raw text⟩
  | none => ⟨500, some "application/json",
      Body.jsonObj [("error", Doc.str "Failed to generate metrics")]⟩

/-- The `/versions` handler, server.js lines 169-190: read and YAML-parse
`./contracts/versions.yaml`; any throw is caught into a single 500. -/
def versionsHandler (yamlLoad : String → Option Doc) (fsx : Fs) (cid : String) : Response :=
  match fsx.readFileSync "./contracts/versions.yaml" with
  | none => ⟨500, some "application/json", errorBody "Failed to load versions" cid⟩
  | some content =>
      match yamlLoad content with
      | none => ⟨500, some "application/json", errorBody "Failed to load versions" cid⟩
      | some versions => ⟨200, some "application/json", Body.jsonDoc versions⟩

/-- The fixed file read by the `/frontend/openapi.json` handler
(server.js line 195). -/
def frontendSpecFile : String := "./contracts/openapi/backend-frontend-api-v1.yaml"

/-- The fixed file read by the `/backend/openapi.json` handler
(server.js line 224). -/
def backendSpecFile : String := "./contracts/openapi/backend-frontend-api-v1.yaml"

/-- The `/frontend/openapi.json` handler, server.js lines 193-219: read the
fixed file, YAML-parse it, respond with the tree as JSON; any throw is
caught into a 500 with message `Failed to load frontend API spec`. -/
def frontendOpenapiHandler (yamlLoad : String → Option Doc) (fsx : Fs) (cid : String) :
    Response :=
  match fsx.readFileSync frontendSpecFile with
  | none => ⟨500, some "application/json", errorBody "Failed to load frontend API spec" cid⟩
  | some content =>
      match yamlLoad content with
      | none => ⟨500, some "application/json", errorBody "Failed to load frontend API spec" cid⟩
      | some spec => ⟨200, some "application/json", Body.jsonDoc spec⟩

/-- The `/backend/openapi.json` handler, server.js lines 222-248: identical
to the frontend handler except for the error message
`Failed to load backend API spec`. -/
def backendOpenapiHandler (yamlLoad : String → Option Doc) (fsx : Fs) (cid : String) :
    Response :=
  match fsx.readFileSync backendSpecFile with
  | none => ⟨500, some "application/json", errorBody "Failed to load backend API spec" cid⟩
  | some content =>
      match yamlLoad content with
      | none => ⟨500, some "application/json", errorBody "Failed to load backend API spec" cid⟩
      | some spec => ⟨200, some "application/json", Body.jsonDoc spec⟩

/-- Configuration of an express-rate-limit instance as constructed in
server.js: window length in milliseconds, maximum hits per window, and the
JSON body sent with a 429. -/
structure RateLimitOptions where
  windowMs : Nat
  max : Nat
  message : Body

/-- The global limiter, server.js lines 62-71: 15-minute window, 1000
requests, applied to every route by `app.use(limiter)` (line 93). -/
def limiter : RateLimitOptions :=
  { windowMs := 15 * 60 * 1000
    max := 1000
    message := Body.jsonObj
      [("error", Doc.str "Too many requests from this IP, please try again later."),
       ("retryAfter", Doc.str "15 minutes")] }

/-- The strict limiter, server.js lines 73-80: 1-minute window, 100
requests, applied only to the two aggregate-document routes
(lines 193 and 222). -/
def strictLimiter : RateLimitOptions :=
  { windowMs := 1 * 60 * 1000
    max := 100
    message := Body.jsonObj
      [("error", Doc.str "Rate limit exceeded for this endpoint, please try again later."),
       ("retryAfter", Doc.str "1 minute")] }

/-- Modelled from the spec: the express-rate-limit dependency is not part
of this repository.  Per the spec's admission-control description, each
limiter keeps a per-client counter over its window; a request inside the
window beyond `max` is rejected with 429 and the configured message body,
and the counter starts afresh once the window has elapsed.  Input: the
client's request timestamps (milliseconds, ascending), the current window
start and the hits already counted in it.  Output per request: `none` when
admitted, `some r` when rejected with response `r`. -/
def limiterTrace (opts : RateLimitOptions) :
    List Nat → Nat → Nat → List (Option Response)
  | [], _, _ => []
  | t :: ts, ws, c =>
    if ws + opts.windowMs ≤ t then
      none :: limiterTrace opts ts t 1
    else if c < opts.max then
      none :: limiterTrace opts ts ws (c + 1)
    else
      some ⟨429, some "application/json", opts.message⟩ :: limiterTrace opts ts ws c

/-- An Express route pattern registered in server.js: either a literal
path or a literal base followed by one named parameter segment. -/
inductive RoutePattern where
  | exact (path : String)
  | oneParam (base : String)
  deriving DecidableEq, Repr

/-- Modelled from the spec: Express's route matching (the express
dependency is not part of this repository).  A literal pattern matches its
own path; a one-parameter pattern matches the base followed by a slash and
one nonempty parameter segment containing no further slash. -/
def matchesRoute (pat : RoutePattern) (path : String) : Bool :=
  match pat with
  | RoutePattern.exact p => p == path
  | RoutePattern.oneParam b =>
      jsStartsWith path (b ++ "/") &&
      (let seg := path.data.drop (b ++ "/").data.length
       !seg.isEmpty && !seg.contains '/')

/-- The GET routes registered in server.js, in registration order, paired
with whether the route carries the strict limiter middleware
(lines 136, 151, 169, 193, 222, 251, 319, 386, 441). -/
def appRoutes : List (RoutePattern × Bool) :=
  [(RoutePattern.exact "/metrics", false),
   (RoutePattern.exact "/health", false),
   (RoutePattern.exact "/versions", false),
   (RoutePattern.exact "/frontend/openapi.json", true),
   (RoutePattern.exact "/backend/openapi.json", true),
   (RoutePattern.oneParam "/openapi", false),
   (RoutePattern.oneParam "/asyncapi", false),
   (RoutePattern.oneParam "/protobuf", false),
   (RoutePattern.exact "/specs", false)]

/-- Modelled from the spec: Express's dispatch of a GET request (the
express dependency is not part of this repository).  The first matching
registered route handles the request; when no route matches, the request
falls through every ordinary middleware to Express's final handler, which
responds 404.  The four-argument error middleware of server.js lines
481-494 participates only when a handler throws or forwards an error, so
it is not reachable for a merely unmatched path. -/
def appDispatchStatus (handlerStatus : RoutePattern → Nat) (path : String) : Nat :=
  match appRoutes.find? (fun r => matchesRoute r.1 path) with
  | some r => handlerStatus r.1
  | none => 404

/-- Body of the error-middleware 500 response, server.js lines 490-493. -/
def middlewareErrorBody (cid : String) : Body := errorBody "Internal server error" cid

/-- Tags of the error branches whose body omits the correlation id: the
`/metrics` catch branch and the two rate-limiter message bodies. -/
def noCorrelationTags : List String := ["metrics-500", "limiter-429", "strictLimiter-429"]

/-- Every error response the server can produce, tagged, with the request
correlation id abstracted: the two limiter 429 bodies (lines 65-68 and
76-79), the `/metrics` catch (line 146), the `/versions` catch (185-188),
the two aggregate-route catches (214-217, 243-246), the 400/404/500
branches of the three parameterised resolvers, the `/specs` catch
(473-476) and the error middleware (490-493). -/
def errorResponses (cid : String) : List (String × Nat × Body) :=
  [("limiter-429", 429, limiter.message),
   ("strictLimiter-429", 429, strictLimiter.message),
   ("metrics-500", 500, Body.jsonObj [("error", Doc.str "Failed to generate metrics")]),
   ("versions-500", 500, errorBody "Failed to load versions" cid),
   ("frontend-500", 500, errorBody "Failed to load frontend API spec" cid),
   ("backend-500", 500, errorBody "Failed to load backend API spec" cid),
   ("openapi-400", 400, errorBody (invalidMsg Category.openapi) cid),
   ("openapi-404", 404, errorBody (notFoundMsg Category.openapi) cid),
   ("openapi-500", 500, errorBody (parseErrorMsg Category.openapi) cid),
   ("asyncapi-400", 400, errorBody (invalidMsg Category.asyncapi) cid),
   ("asyncapi-404", 404, errorBody (notFoundMsg Category.asyncapi) cid),
   ("asyncapi-500", 500, errorBody (parseErrorMsg Category.asyncapi) cid),
   ("protobuf-400", 400, errorBody (invalidMsg Category.protobuf) cid),
   ("protobuf-404", 404, errorBody (notFoundMsg Category.protobuf) cid),
   ("protobuf-500", 500, errorBody (parseErrorMsg Category.protobuf) cid),
   ("specs-500", 500, errorBody "Failed to list specifications" cid),
   ("middleware-500", 500, middlewareErrorBody cid)]

/-! ### Theorems -/

/-- C1: for every request to one of the three parameterised resolvers whose
file name contains a parent-reference segment or a path separator, the
handler responds 400 and performs no filesystem access. -/
theorem traversalRejectedBeforeFs (c : Category) (yamlLoad : String → Option Doc)
    (fsx : Fs) (req : Request)
    (h : jsIncludes req.param ".." = true ∨ jsIncludes req.param "/" = true) :
    (specHandler c yamlLoad fsx req).1.status = 400 ∧
      (specHandler c yamlLoad fsx req).2 = [] := by
  have hv : invalidFileName c req.param = true := by
    rcases h with h | h <;> simp [invalidFileName, h]
  simp [specHandler, hv]

/-- Witness for C1 at the spec's own example input. -/
theorem traversalRejectedBeforeFs_witness :
    (specHandler Category.openapi (fun _ => none)
        ⟨fun _ => true, fun _ => some ""⟩
        ⟨"../../etc/passwd", none, "cid-1"⟩).1.status = 400 ∧
      (specHandler Category.openapi (fun _ => none)
        ⟨fun _ => true, fun _ => some ""⟩
        ⟨"../../etc/passwd", none, "cid-1"⟩).2 = [] :=
  traversalRejectedBeforeFs _ _ _ _ (Or.inl (by decide))

/-- C10: the traversal check is substring containment of two consecutive
dots, not a path-segment check: a file name containing two consecutive dots
is rejected with 400 even when it has no path separator, carries the
correct extension, and names an existing file under the category root. -/
theorem dotdotSubstringRejected (c : Category) (yamlLoad : String → Option Doc)
    (fsx : Fs) (req : Request)
    (h1 : jsIncludes req.param ".." = true)
    (h2 : jsIncludes req.param "/" = false)
    (h3 : jsEndsWith req.param (requiredExt c) = true)
    (h4 : fsx.existsSync (pathJoin (categoryRoot c) req.param) = true) :
    (specHandler c yamlLoad fsx req).1.status = 400 := by
  have hv : invalidFileName c req.param = true := by simp [invalidFileName, h1]
  simp [specHandler, hv]

/-- Witness for C10 at the file name from the claim. -/
theorem dotdotSubstringRejected_witness :
    (specHandler Category.openapi (fun _ => some Doc.nul)
        ⟨fun _ => true, fun _ => some ""⟩
        ⟨"api..v2.yaml", none, "cid-10"⟩).1.status = 400 :=
  dotdotSubstringRejected _ _ _ _ (by decide) (by decide) (by decide) (by decide)

/-- C4: a request that passes validation but names no existing file gets a
404 response (in particular never a 500). -/
theorem missingFile404 (c : Category) (yamlLoad : String → Option Doc)
    (fsx : Fs) (req : Request)
    (hv : invalidFileName c req.param = false)
    (he : fsx.existsSync (pathJoin (categoryRoot c) req.param) = false) :
    (specHandler c yamlLoad fsx req).1.status = 404 := by
  simp [specHandler, hv, he]

/-- Witness for C4 at the spec's own example input. -/
theorem missingFile404_witness :
    (specHandler Category.openapi (fun _ => some Doc.nul)
        ⟨fun _ => false, fun _ => none⟩
        ⟨"nonexistent.yaml", none, "cid-4"⟩).1.status = 404 :=
  missingFile404 _ _ _ _ (by decide) (by decide)

/-- C3, counterexample: a file name ending in `.yml` does not pass the
extension check of the openapi resolver — the handler answers 400 even
though the name has no parent reference and no separator and the file
exists, contradicting the claim that `.yml` is accepted. -/
theorem ymlExtensionRejected_cex :
    (specHandler Category.openapi (fun _ => some Doc.nul)
        ⟨fun _ => true, fun _ => some "openapi: 3.0.0"⟩
        ⟨"spec.yml", none, "cid-3"⟩).1.status = 400 ∧
      jsIncludes "spec.yml" ".." = false ∧
      jsIncludes "spec.yml" "/" = false ∧
      jsEndsWith "spec.yml" ".yml" = true := by
  refine ⟨by decide, by decide, by decide, by decide⟩

/-- C3 as amended: for openapi and asyncapi only a `.yaml` name passes the
extension check (`.yml` alone is rejected with 400, like every other
non-matching extension), and for protobuf only `.proto`; a name with the
category's exact required extension and no traversal characters passes
validation. -/
theorem extensionCheck_amended (c : Category) (yamlLoad : String → Option Doc)
    (fsx : Fs) (req : Request) :
    (jsEndsWith req.param (requiredExt c) = false →
        (specHandler c yamlLoad fsx req).1.status = 400) ∧
      (jsIncludes req.param ".." = false → jsIncludes req.param "/" = false →
        jsEndsWith req.param (requiredExt c) = true →
        invalidFileName c req.param = false) := by
  constructor
  · intro h
    have hv : invalidFileName c req.param = true := by simp [invalidFileName, h]
    simp [specHandler, hv]
  · intro h1 h2 h3
    simp [invalidFileName, h1, h2, h3]

/-- Witness for the amended C3: a `.txt` name is rejected with 400 by the
openapi resolver, a wrong-category `.yaml` name is rejected with 400 by the
protobuf resolver, and a plain `.yaml` name passes the asyncapi
validation. -/
theorem extensionCheck_amended_witness :
    (specHandler Category.openapi (fun _ => some Doc.nul)
        ⟨fun _ => true, fun _ => some ""⟩ ⟨"file.txt", none, "cid-3b"⟩).1.status = 400 ∧
      (specHandler Category.protobuf (fun _ => some Doc.nul)
        ⟨fun _ => true, fun _ => some ""⟩ ⟨"service.yaml", none, "cid-3c"⟩).1.status = 400 ∧
      invalidFileName Category.asyncapi "events.yaml" = false :=
  ⟨(extensionCheck_amended _ _ _ _).1 (by decide),
   (extensionCheck_amended _ _ _ _).1 (by decide),
   (extensionCheck_amended Category.asyncapi (fun _ => none)
      ⟨fun _ => true, fun _ => some ""⟩ ⟨"events.yaml", none, "x"⟩).2
      (by decide) (by decide) (by decide)⟩

/-- C2: for a validated, existing, readable openapi/asyncapi file: an
Accept header containing `application/yaml` yields 200 with
`Content-Type: application/yaml` and the raw text verbatim; otherwise
(including an absent Accept header) the text is YAML-parsed and served as
JSON with 200, and a parse failure yields 500. -/
theorem contentNegotiation (c : Category) (yamlLoad : String → Option Doc)
    (fsx : Fs) (req : Request) (content : String)
    (hc : c = Category.openapi ∨ c = Category.asyncapi)
    (hv : invalidFileName c req.param = false)
    (he : fsx.existsSync (pathJoin (categoryRoot c) req.param) = true)
    (hr : fsx.readFileSync (pathJoin (categoryRoot c) req.param) = some content) :
    (wantsYaml req.accept = true →
        (specHandler c yamlLoad fsx req).1.status = 200 ∧
        (specHandler c yamlLoad fsx req).1.contentType = some "application/yaml" ∧
        (specHandler c yamlLoad fsx req).1.body = Body.raw content) ∧
      (wantsYaml req.accept = false →
        (∀ t, yamlLoad content = some t →
            (specHandler c yamlLoad fsx req).1.status = 200 ∧
            (specHandler c yamlLoad fsx req).1.contentType = some "application/json" ∧
            (specHandler c yamlLoad fsx req).1.body = Body.jsonDoc t) ∧
          (yamlLoad content = none →
            (specHandler c yamlLoad fsx req).1.status = 500)) := by
  rcases hc with rfl | rfl <;>
  · refine ⟨fun hy => ?_, fun hy => ⟨fun t ht => ?_, fun ht => ?_⟩⟩ <;>
      simp_all [specHandler, hv, he, hr]

/-- Witness for C2: the YAML branch at a concrete file. -/
theorem contentNegotiation_witness :
    (specHandler Category.openapi (fun _ => some Doc.nul)
        ⟨fun _ => true, fun _ => some "openapi: 3.0.0"⟩
        ⟨"api.yaml", some "application/yaml", "cid-2"⟩).1.body =
      Body.raw "openapi: 3.0.0" :=
  ((contentNegotiation Category.openapi (fun _ => some Doc.nul)
      ⟨fun _ => true, fun _ => some "openapi: 3.0.0"⟩
      ⟨"api.yaml", some "application/yaml", "cid-2"⟩ "openapi: 3.0.0"
      (Or.inl rfl) (by decide) (by decide) (by decide)).1 (by decide)).2.2

/-- C7: for a stored openapi/asyncapi file whose text parses, and two
requests differing only in the Accept header, the tree served by the JSON
rendering, re-serialised to YAML and parsed back, equals the YAML
rendering's raw body parsed back — provided the client's serialiser
round-trips through the same parser at that tree. -/
theorem jsonYamlRoundTrip (c : Category) (yamlLoad : String → Option Doc)
    (yamlSerialize : Doc → String) (fsx : Fs) (f a cid1 cid2 : String)
    (t : Doc) (content : String)
    (hc : c = Category.openapi ∨ c = Category.asyncapi)
    (hv : invalidFileName c f = false)
    (he : fsx.existsSync (pathJoin (categoryRoot c) f) = true)
    (hr : fsx.readFileSync (pathJoin (categoryRoot c) f) = some content)
    (hparse : yamlLoad content = some t)
    (hrt : yamlLoad (yamlSerialize t) = some t)
    (hay : wantsYaml (some a) = true) :
    ∃ tj raw,
      (specHandler c yamlLoad fsx ⟨f, none, cid1⟩).1.body = Body.jsonDoc tj ∧
      (specHandler c yamlLoad fsx ⟨f, some a, cid2⟩).1.body = Body.raw raw ∧
      yamlLoad (yamlSerialize tj) = yamlLoad raw := by
  refine ⟨t, content, ?_, ?_, ?_⟩
  · rcases hc with rfl | rfl <;> simp [specHandler, hv, he, hr, hparse, wantsYaml]
  · rcases hc with rfl | rfl <;> simp [specHandler, hv, he, hr, hay]
  · rw [hrt, hparse]

/-- Witness for C7 with a concrete parser/serialiser pair that round-trips
at the tree in question. -/
theorem jsonYamlRoundTrip_witness :
    ∃ tj raw,
      (specHandler Category.openapi (fun s => some (Doc.str s))
          ⟨fun _ => true, fun _ => some "k"⟩ ⟨"api.yaml", none, "cid-7a"⟩).1.body =
        Body.jsonDoc tj ∧
      (specHandler Category.openapi (fun s => some (Doc.str s))
          ⟨fun _ => true, fun _ => some "k"⟩
          ⟨"api.yaml", some "application/yaml", "cid-7b"⟩).1.body = Body.raw raw ∧
      (fun s => some (Doc.str s))
          ((fun d => match d with | Doc.str s => s | _ => "") tj) =
        (fun s => some (Doc.str s)) raw :=
  jsonYamlRoundTrip Category.openapi (fun s => some (Doc.str s))
    (fun d => match d with | Doc.str s => s | _ => "")
    ⟨fun _ => true, fun _ => some "k"⟩ "api.yaml" "application/yaml" "cid-7a" "cid-7b"
    (Doc.str "k") "k" (Or.inl rfl) (by decide) (by decide) rfl rfl rfl (by decide)

/-- C5, counterexample: the 500 branch of the `/metrics` handler produces a
body with an `error` field but without the request's correlation id,
contradicting the claim that every error body carries the correlation id. -/
theorem metricsErrorBody_cex :
    (metricsHandler none).status = 500 ∧
      bodyHasKey (metricsHandler none).body "error" = true ∧
      bodyHasKey (metricsHandler none).body "correlationId" = false :=
  ⟨rfl, rfl, rfl⟩

/-- C5 as amended: every error response body carries an `error` field and
never a stack trace; every one except the `/metrics` failure body and the
two rate-limiter 429 bodies also carries the request's correlation id. -/
theorem errorBodies_amended (cid : String) :
    ((errorResponses cid).all fun e =>
        bodyHasKey e.2.2 "error" && !(bodyHasKey e.2.2 "stack") &&
        (noCorrelationTags.contains e.1 ||
          (match lookupKey e.2.2 "correlationId" with
           | some (Doc.str s) => s == cid
           | _ => false))) = true := by
  simp [errorResponses, bodyHasKey, lookupKey, errorBody, noCorrelationTags,
    limiter, strictLimiter, middlewareErrorBody, invalidMsg, notFoundMsg,
    parseErrorMsg, List.find?]

/-- C9, counterexample: when the shared aggregate file cannot be read, both
aggregate handlers answer 500, but their bodies differ in the `error`
message text even under the same correlation id — so the bodies are not
identical apart from the correlation id. -/
theorem aggregateHandlers_cex :
    (frontendOpenapiHandler (fun _ => some Doc.nul) ⟨fun _ => true, fun _ => none⟩
        "cid-9").status = 500 ∧
      (backendOpenapiHandler (fun _ => some Doc.nul) ⟨fun _ => true, fun _ => none⟩
        "cid-9").status = 500 ∧
      (frontendOpenapiHandler (fun _ => some Doc.nul) ⟨fun _ => true, fun _ => none⟩
          "cid-9").body ≠
        (backendOpenapiHandler (fun _ => some Doc.nul) ⟨fun _ => true, fun _ => none⟩
          "cid-9").body := by
  refine ⟨rfl, rfl, ?_⟩
  simp [frontendOpenapiHandler, backendOpenapiHandler, frontendSpecFile,
    backendSpecFile, errorBody]

/-- C9 as amended: the two aggregate handlers read the same fixed file and,
on the same filesystem state and parser, always return the same status; on
success their bodies are identical, and on failure both answer 500 with
bodies that differ only in the error message wording. -/
theorem aggregateHandlersEquiv_amended (yamlLoad : String → Option Doc)
    (fsx : Fs) (cid : String) :
    frontendSpecFile = backendSpecFile ∧
      (frontendOpenapiHandler yamlLoad fsx cid).status =
        (backendOpenapiHandler yamlLoad fsx cid).status ∧
      ((frontendOpenapiHandler yamlLoad fsx cid).body =
          (backendOpenapiHandler yamlLoad fsx cid).body ∨
        ((frontendOpenapiHandler yamlLoad fsx cid).status = 500 ∧
          (frontendOpenapiHandler yamlLoad fsx cid).body =
            errorBody "Failed to load frontend API spec" cid ∧
          (backendOpenapiHandler yamlLoad fsx cid).body =
            errorBody "Failed to load backend API spec" cid)) := by
  refine ⟨rfl, ?_, ?_⟩ <;>
  · unfold frontendOpenapiHandler backendOpenapiHandler
    rw [show backendSpecFile = frontendSpecFile from rfl]
    rcases hread : fsx.readFileSync frontendSpecFile with _ | content
    · simp [hread]
    · rcases hload : yamlLoad content with _ | spec <;> simp [hread, hload]

/-- Inside a single limiter window, the n-th request of a client (0-based,
with c hits already counted in the window) is admitted exactly when c + n
is below the configured maximum, and rejected with the configured 429
response otherwise. -/
theorem limiterTrace_in_window (opts : RateLimitOptions) (ts : List Nat) (ws c : Nat)
    (h : ∀ t ∈ ts, t < ws + opts.windowMs) :
    limiterTrace opts ts ws c = (List.range ts.length).map
      (fun n => if c + n < opts.max then none
        else some ⟨429, some "application/json", opts.message⟩) := by
  revert h
  induction ts generalizing c with
  | nil => intro h; rfl
  | cons t ts ih =>
    intro h
    have ht : t < ws + opts.windowMs := h t (List.mem_cons_self t ts)
    have hts : ∀ x ∈ ts, x < ws + opts.windowMs :=
      fun x hx => h x (List.mem_cons_of_mem t hx)
    have hnw : ¬ (ws + opts.windowMs ≤ t) := by omega
    rw [List.length_cons, List.range_succ_eq_map, List.map_cons, List.map_map]
    by_cases hc : c < opts.max
    · rw [limiterTrace, if_neg hnw, if_pos hc, ih (c + 1) hts]
      congr 1
      · simp [hc]
      · apply List.map_congr_left
        intro n _
        exact if_congr (by omega) rfl rfl
    · rw [limiterTrace, if_neg hnw, if_neg hc, ih c hts]
      congr 1
      · simp [hc]
      · apply List.map_congr_left
        intro n _
        exact if_congr (by omega) rfl rfl

/-- C6, counterexample: the excess request inside one minute is answered
429, but the retry-after hint carried by the body is the string
`1 minute`, not a number, contradicting the claim of a numeric hint. -/
theorem strictLimiterRetryAfter_cex :
    limiterTrace strictLimiter [0] 0 strictLimiter.max =
        [some ⟨429, some "application/json", strictLimiter.message⟩] ∧
      lookupKey strictLimiter.message "retryAfter" = some (Doc.str "1 minute") ∧
      keyIsNumeric strictLimiter.message "retryAfter" = false :=
  ⟨rfl, rfl, rfl⟩

/-- C6 as amended: the strict 1-minute limiter is attached exactly to the
two aggregate-document routes (the 15-minute limiter applies globally);
within one window, a client request beyond the configured count is
answered 429 with the strict limiter's body, whose retry-after hint is the
human-readable string `1 minute` rather than a number. -/
theorem strictLimiter_amended :
    (∀ r b, ((r, b) ∈ appRoutes) →
        (b = true ↔ (r = RoutePattern.exact "/frontend/openapi.json" ∨
          r = RoutePattern.exact "/backend/openapi.json"))) ∧
      (∀ ts ws c, (∀ t ∈ ts, t < ws + strictLimiter.windowMs) →
        limiterTrace strictLimiter ts ws c = (List.range ts.length).map
          (fun n => if c + n < strictLimiter.max then none
            else some ⟨429, some "application/json", strictLimiter.message⟩)) ∧
      lookupKey strictLimiter.message "retryAfter" = some (Doc.str "1 minute") ∧
      keyIsNumeric strictLimiter.message "retryAfter" = false := by
  refine ⟨?_, ?_, rfl, rfl⟩
  · intro r b hm
    fin_cases hm <;> simp
  · intro ts ws c h
    exact limiterTrace_in_window strictLimiter ts ws c h

/-- Witness for the amended C6: the 101st request of a client within one
minute is rejected with the strict limiter's 429 response. -/
theorem strictLimiter_amended_witness :
    limiterTrace strictLimiter [30000] 0 100 =
      [some ⟨429, some "application/json", strictLimiter.message⟩] := by
  have h := strictLimiter_amended.2.1 [30000] 0 100 (by decide)
  simpa using h

/-- C8, counterexample: the path of the repository's own test request
matches no registered route, and the dispatcher answers 404 (whatever the
handlers would answer), not 500 — the four-argument error middleware is
not reached for a merely unmatched path. -/
theorem unmatchedRoute404_cex :
    (appRoutes.all fun r => !(matchesRoute r.1 "/non-existent-endpoint")) = true ∧
      appDispatchStatus (fun _ => 200) "/non-existent-endpoint" = 404 ∧
      appDispatchStatus (fun _ => 200) "/non-existent-endpoint" ≠ 500 :=
  ⟨by decide, by decide, by decide⟩

/-- C8 as amended: a GET request whose path matches no registered route is
answered with Express's standard 404, never 500; the generic
error-handling fallback serves only errors raised inside matched
handlers. -/
theorem unmatchedRoute_amended (handlerStatus : RoutePattern → Nat) (path : String)
    (h : ∀ r ∈ appRoutes, matchesRoute r.1 path = false) :
    appDispatchStatus handlerStatus path = 404 ∧
      appDispatchStatus handlerStatus path ≠ 500 := by
  have hf : appRoutes.find? (fun r => matchesRoute r.1 path) = none := by
    rw [List.find?_eq_none]
    intro x hx
    simp [h x hx]
  exact ⟨by simp [appDispatchStatus, hf], by simp [appDispatchStatus, hf]⟩

/-- Witness for the amended C8 at the other unknown path used by the
repository's tests. -/
theorem unmatchedRoute_amended_witness :
    appDispatchStatus (fun _ => 200) "/unknown-endpoint" = 404 ∧
      appDispatchStatus (fun _ => 200) "/unknown-endpoint" ≠ 500 :=
  unmatchedRoute_amended _ _ (by decide)

end KeikoContracts
